import Mathlib

/-!
Verification development for Clementine's `GstEnginePipeline`
(src/src/engines/gstenginepipeline.h).

Only the class header is present in the repository snapshot; the member
function bodies live in the missing gstenginepipeline.cpp.  The data model
(field names, types, signal surface) is embedded from the header; each
operation whose body is missing is modelled from the specification
(spec.md) and marked `Modelled from the spec:` in its doc comment.

Machine integers (qint64, int) are modelled as Int, qreal as Rat.
GStreamer objects are abstracted: buffers and tag bundles become plain
values, and the observable effects (emitted Qt signals, flush seeks and
volume values pushed into the element graph) are recorded in ghost lists.
-/

/-- Model of QUrl: `none` is an invalid/empty URL (as produced by `QUrl()`),
`some s` a valid URL. -/
abbrev QUrl := Option String

/-- `QUrl::isValid()`. -/
def QUrl.isValid (u : QUrl) : Bool := u.isSome

/-- From the header (lines 43-47): an error message plus the opaque
(domain, code) pair carried verbatim from GStreamer's GError. -/
structure PipelineError where
  message : String
  domain : Int
  error_code : Int
deriving DecidableEq

/-- GStreamer pipeline states used by the controller. -/
inductive GstState where
  | GST_STATE_NULL
  | GST_STATE_READY
  | GST_STATE_PAUSED
  | GST_STATE_PLAYING
deriving DecidableEq

/-- The Qt signals of the class (header lines 98-104), recorded as ghost
events in the order they are emitted. -/
inductive Event where
  | EndOfStreamReached (has_next_track : Bool)
  | MetadataFound (bundle : String)
  | ErrorSignal (message : String) (domain : Int) (error_code : Int)
  | FaderFinished
deriving DecidableEq, BEq

/-- State of one `GstEnginePipeline` instance.  Fields keep the header's
names.  `pending_seek_nanosec_` uses `Option Int` (the C++ sentinel -1 for
"no pending seek" becomes `none`).  The fader timeline is modelled as an
optional count of remaining timer ticks.  `raw_position_nanosec_` and
`raw_duration_nanosec_` stand for the values the underlying GStreamer
position/duration queries would return.  `events`, `flush_seeks` and
`pushed_volumes` are ghost observation logs. -/
structure GstEnginePipeline where
  valid_ : Bool
  state_ : GstState
  buffer_consumers_ : List Nat
  segment_start_ : Int
  url_ : QUrl
  next_url_ : QUrl
  end_offset_nanosec_ : Int
  next_beginning_offset_nanosec_ : Int
  next_end_offset_nanosec_ : Int
  ignore_next_seek_ : Bool
  ignore_tags_ : Bool
  pipeline_is_initialised_ : Bool
  pipeline_is_connected_ : Bool
  pipeline_error_ : Option PipelineError
  pending_seek_nanosec_ : Option Int
  volume_percent_ : Int
  volume_modifier_ : Rat
  fader_ : Option Nat
  raw_position_nanosec_ : Int
  raw_duration_nanosec_ : Int
  events : List Event
  flush_seeks : List Int
  pushed_volumes : List Rat
deriving DecidableEq

namespace GstEnginePipeline

/-- The freshly constructed pipeline: created invalid, nothing loaded. -/
def initialState : GstEnginePipeline :=
  { valid_ := false
    state_ := GstState.GST_STATE_NULL
    buffer_consumers_ := []
    segment_start_ := 0
    url_ := none
    next_url_ := none
    end_offset_nanosec_ := 0
    next_beginning_offset_nanosec_ := 0
    next_end_offset_nanosec_ := 0
    ignore_next_seek_ := false
    ignore_tags_ := false
    pipeline_is_initialised_ := false
    pipeline_is_connected_ := false
    pipeline_error_ := none
    pending_seek_nanosec_ := none
    volume_percent_ := 100
    volume_modifier_ := 1
    fader_ := none
    raw_position_nanosec_ := 0
    raw_duration_nanosec_ := 0
    events := []
    flush_seeks := []
    pushed_volumes := [] }

/-- From the header (line 79): `bool has_next_valid_url() const
\x7b return next_url_.isValid(); \x7d`. -/
def has_next_valid_url (s : GstEnginePipeline) : Bool := s.next_url_.isValid

/-- From the header (line 91): `qint64 segment_start() const
\x7b return segment_start_; \x7d`. -/
def segment_start (s : GstEnginePipeline) : Int := s.segment_start_

/-- Modelled from the spec: the body of `position()` is in the missing
gstenginepipeline.cpp.  Per the header comment (lines 84-85) this method
"is multiple-section media unaware": it reports the raw position of the
underlying pipeline query, with no adjustment for `segment_start_` or
`end_offset_nanosec_`. -/
def position (s : GstEnginePipeline) : Int := s.raw_position_nanosec_

/-- Modelled from the spec: the body of `length()` is in the missing
gstenginepipeline.cpp.  Per the header comment (lines 87-88) it is likewise
multiple-section media unaware: the raw duration of the underlying query. -/
def length (s : GstEnginePipeline) : Int := s.raw_duration_nanosec_

/-- Modelled from the spec: `SetNextUrl` (body in the missing .cpp)
"records a pending gapless target"; spec section 8: "For all valid
(begin, end) pairs with `end == 0 ∨ end > begin`, `SetNextUrl` accepted;
otherwise rejected", preserving the invariant of section 3 that a valid
`next_url` has well-formed offsets.  A rejected pair leaves the pipeline
unchanged. -/
def SetNextUrl (s : GstEnginePipeline) (url : QUrl)
    (beginning_nanosec end_nanosec : Int) : GstEnginePipeline :=
  if end_nanosec = 0 ∨ end_nanosec > beginning_nanosec then
    { s with next_url_ := url
             next_beginning_offset_nanosec_ := beginning_nanosec
             next_end_offset_nanosec_ := end_nanosec }
  else s

/-- The data-model invariant from spec section 3: `next_url` valid implies
`next_beginning/next_end` are well-formed (`end == 0` or `end > beginning`). -/
def wellFormedNext (s : GstEnginePipeline) : Prop :=
  s.next_url_.isValid = true →
    s.next_end_offset_nanosec_ = 0 ∨
      s.next_end_offset_nanosec_ > s.next_beginning_offset_nanosec_

/-- Per-percent clamp used by the volume computation of spec section 8:
`clamp(base,0,100)`. -/
def clampPercent (p : Int) : Int := max 0 (min p 100)

/-- Modelled from the spec (sections 4.4 and 8): the effective output gain
is `clamp(base,0,100)/100 × modifier`. -/
def effectiveGain (percent : Int) (modifier : Rat) : Rat :=
  (clampPercent percent : Rat) / 100 * modifier

/-- Modelled from the spec: `UpdateVolume` (body in the missing .cpp)
recomputes the effective gain and pushes it to the `volume_` element of the
graph; the push is recorded in the `pushed_volumes` ghost log. -/
def UpdateVolume (s : GstEnginePipeline) : GstEnginePipeline :=
  { s with pushed_volumes :=
      s.pushed_volumes ++ [effectiveGain s.volume_percent_ s.volume_modifier_] }

/-- Modelled from the spec: `SetVolume` (body in the missing .cpp) stores
the base volume percent and recomputes/pushes the gain. -/
def SetVolume (s : GstEnginePipeline) (percent : Int) : GstEnginePipeline :=
  UpdateVolume { s with volume_percent_ := percent }

/-- Modelled from the spec: `SetVolumeModifier` (body in the missing .cpp)
stores the independent multiplicative modifier axis and recomputes/pushes
the gain. -/
def SetVolumeModifier (s : GstEnginePipeline) (modifier : Rat) : GstEnginePipeline :=
  UpdateVolume { s with volume_modifier_ := modifier }

/-- Modelled from the spec (section 4.1): a flush seek issued to the
element graph is clamped to `[segment_start, segment_start+length)`; the
clamped target is recorded in the `flush_seeks` ghost log and any pending
deferred seek is consumed. -/
def issueFlushSeek (s : GstEnginePipeline) (nanosec : Int) : GstEnginePipeline :=
  { s with pending_seek_nanosec_ := none
           flush_seeks := s.flush_seeks ++
             [max s.segment_start_ (min nanosec (s.segment_start_ + s.raw_duration_nanosec_))] }

/-- Modelled from the spec: `Seek` (body in the missing .cpp).  Spec
sections 4.1 and 5: a seek received while a gapless transition is in
progress (the transient window marked by `ignore_next_seek_`) is queued
and replayed once the transition completes, never silently dropped; a seek
received while the pipeline is not yet connected (decode stage not
resolved) or not past the READY state is deferred into
`pending_seek_nanosec_` and replayed once the preconditions are met;
otherwise a flush seek is issued immediately, clamped to
`[segment_start, segment_start+length)`.  Returns whether the request was
accepted. -/
def Seek (s : GstEnginePipeline) (nanosec : Int) : GstEnginePipeline × Bool :=
  if s.ignore_next_seek_ then
    ({ s with pending_seek_nanosec_ := some nanosec }, true)
  else if !s.pipeline_is_connected_ || !s.pipeline_is_initialised_ then
    ({ s with pending_seek_nanosec_ := some nanosec }, true)
  else
    (issueFlushSeek s nanosec, true)

/-- Modelled from the spec: `NewPadCallback` (body in the missing .cpp)
fires when the decode stage resolves a pad; it marks the pipeline
connected and, when the state precondition already holds, replays a
deferred seek. -/
def NewPadCallback (s : GstEnginePipeline) : GstEnginePipeline :=
  let s1 := { s with pipeline_is_connected_ := true }
  match s1.pending_seek_nanosec_ with
  | some p => if s1.pipeline_is_initialised_ then (Seek s1 p).1 else s1
  | none => s1

/-- Modelled from the spec: `StateChangedMessageReceived` (body in the
missing .cpp).  Reaching PAUSED or PLAYING marks the pipeline as past the
READY state (header lines 199-202) and, when the pipeline is already
connected, replays a deferred seek. -/
def StateChangedMessageReceived (s : GstEnginePipeline) (new_state : GstState) :
    GstEnginePipeline :=
  let s1 := { s with state_ := new_state }
  if new_state = GstState.GST_STATE_PAUSED ∨ new_state = GstState.GST_STATE_PLAYING then
    let s2 := { s1 with pipeline_is_initialised_ := true }
    match s2.pending_seek_nanosec_ with
    | some p => if s2.pipeline_is_connected_ then (Seek s2 p).1 else s2
    | none => s2
  else s1

/-- Modelled from the spec: `TransitionToNext` (body in the missing .cpp),
the gapless hand-off of section 4.1.  If `next_url_` is valid, the next
source is activated (for the contiguous-continuation case this is simply a
reset of the playback bounds): the current URL and segment bounds take the
pending next values, the pending target is consumed, the transient switch
window opens (`ignore_tags_` suppresses metadata, `ignore_next_seek_`
queues seeks), and end-of-stream is signalled with `has_next_track = true`.
If `next_url_` is invalid, end-of-stream is signalled with
`has_next_track = false`. -/
def TransitionToNext (s : GstEnginePipeline) : GstEnginePipeline :=
  if s.next_url_.isValid then
    { s with url_ := s.next_url_
             segment_start_ := s.next_beginning_offset_nanosec_
             end_offset_nanosec_ := s.next_end_offset_nanosec_
             next_url_ := none
             next_beginning_offset_nanosec_ := 0
             next_end_offset_nanosec_ := 0
             ignore_tags_ := true
             ignore_next_seek_ := true
             events := s.events ++ [Event.EndOfStreamReached true] }
  else
    { s with events := s.events ++ [Event.EndOfStreamReached false] }

/-- Modelled from the spec: completion of the transient switch window
opened by `TransitionToNext` (in the source the window is closed once the
new decode stage is up).  The suppression flags are cleared and a seek
queued during the switch is replayed (spec section 5: "queued and replayed
once the transition completes"). -/
def FinishTransition (s : GstEnginePipeline) : GstEnginePipeline :=
  let s1 := { s with ignore_tags_ := false, ignore_next_seek_ := false }
  match s1.pending_seek_nanosec_ with
  | some p => (Seek s1 p).1
  | none => s1

/-- Modelled from the spec: `TagMessageReceived` (body in the missing
.cpp).  Spec section 4.2: tag messages are parsed into a metadata bundle
and emitted to the caller, unless suppressed by the "ignore tags"
transient state during a track switch. -/
def TagMessageReceived (s : GstEnginePipeline) (bundle : String) : GstEnginePipeline :=
  if s.ignore_tags_ then s
  else { s with events := s.events ++ [Event.MetadataFound bundle] }

/-- Modelled from the spec: `ErrorMessageReceived` (body in the missing
.cpp).  Spec section 4.2: an error message is captured into a
`PipelineError`; received before the pipeline reaches Ready it is cached
in `pipeline_error_` (immutable once captured) to become `Init`'s failure
reason; received afterward it is emitted as an `Error` event to the
caller, with no automatic retry. -/
def ErrorMessageReceived (s : GstEnginePipeline) (e : PipelineError) : GstEnginePipeline :=
  if s.state_ = GstState.GST_STATE_NULL then
    match s.pipeline_error_ with
    | some _ => s
    | none => { s with pipeline_error_ := some e }
  else
    { s with events := s.events ++ [Event.ErrorSignal e.message e.domain e.error_code] }

/-- Modelled from the spec: `InitFromUrl` (body in the missing .cpp)
builds the element graph for `url`.  `build_ok` abstracts whether graph
construction succeeds and `startup_errors` the bus errors delivered before
the pipeline reaches Ready.  On a construction failure, or when a startup
error was cached, it returns false and leaves the pipeline invalid;
otherwise the pipeline becomes valid and reaches READY.  Playback is not
started. -/
def InitFromUrl (s : GstEnginePipeline) (url : QUrl) (end_nanosec : Int)
    (build_ok : Bool) (startup_errors : List PipelineError) :
    GstEnginePipeline × Bool :=
  let s0 := { s with url_ := url, end_offset_nanosec_ := end_nanosec }
  if !build_ok then ({ s0 with valid_ := false }, false)
  else
    let s1 := startup_errors.foldl ErrorMessageReceived s0
    match s1.pipeline_error_ with
    | some _ => ({ s1 with valid_ := false }, false)
    | none => ({ s1 with valid_ := true, state_ := GstState.GST_STATE_READY }, true)

/-- From the header (line 62) and spec section 4.3: registers a buffer
consumer in the mutex-guarded ordered set (the identifier models the
`BufferConsumer*`). -/
def AddBufferConsumer (s : GstEnginePipeline) (consumer : Nat) : GstEnginePipeline :=
  if consumer ∈ s.buffer_consumers_ then s
  else { s with buffer_consumers_ := s.buffer_consumers_ ++ [consumer] }

/-- From the header (line 63) and spec section 4.3: unregisters a
consumer. -/
def RemoveBufferConsumer (s : GstEnginePipeline) (consumer : Nat) : GstEnginePipeline :=
  { s with buffer_consumers_ := s.buffer_consumers_.filter (fun c => c != consumer) }

/-- From the header (line 64): unregisters every consumer. -/
def RemoveAllBufferConsumers (s : GstEnginePipeline) : GstEnginePipeline :=
  { s with buffer_consumers_ := [] }

/-- Modelled from the spec: the delivery half of `HandoffCallback` (body
in the missing .cpp).  Spec section 4.3: on each streamed buffer the
fan-out delivers the buffer to every currently registered consumer,
iterating over a snapshot of the set (copy-or-snapshot semantics, so
delivery never mutates the set mid-iteration).  Returns the list of
(consumer, buffer) deliveries performed. -/
def DeliverBuffer (s : GstEnginePipeline) (buf : Int) : List (Nat × Int) :=
  s.buffer_consumers_.map (fun c => (c, buf))

/-- Modelled from the spec: `StartFader` (body in the missing .cpp).  Spec
section 4.5: starting a fade while one is active cancels/replaces the
previous envelope.  The timeline is modelled by its remaining tick count. -/
def StartFader (s : GstEnginePipeline) (duration_ticks : Nat) : GstEnginePipeline :=
  { s with fader_ := some duration_ticks }

/-- Modelled from the spec: the `FaderTimelineFinished` slot (body in the
missing .cpp): on natural completion of the envelope the timeline is
dropped and `FaderFinished` is emitted. -/
def FaderTimelineFinished (s : GstEnginePipeline) : GstEnginePipeline :=
  { s with fader_ := none, events := s.events ++ [Event.FaderFinished] }

/-- Modelled from the spec: one tick of the fader's periodic timer.  An
active envelope counts down; reaching the end triggers
`FaderTimelineFinished` exactly once; without an active envelope the tick
is a no-op. -/
def faderTick (s : GstEnginePipeline) : GstEnginePipeline :=
  match s.fader_ with
  | none => s
  | some 0 => FaderTimelineFinished s
  | some (n + 1) => { s with fader_ := some n }

/-- Runs `n` fader timer ticks. -/
def runTicks : GstEnginePipeline → Nat → GstEnginePipeline
  | s, 0 => s
  | s, n + 1 => runTicks (faderTick s) n

/-- Number of `FaderFinished` events emitted so far. -/
def faderFinishedCount (s : GstEnginePipeline) : Nat :=
  s.events.countP (fun e => e = Event.FaderFinished)

end GstEnginePipeline

open GstEnginePipeline

/-- A pipeline about to perform the contiguous gapless transition of the
spec's section 8 scenario: current segment `[0, 1000)`, next section
`(begin = 1000, end = 2000)` of the same source. -/
def demoTransitionState : GstEnginePipeline :=
  { initialState with
      valid_ := true
      state_ := GstState.GST_STATE_PLAYING
      url_ := some "file:///a.ogg"
      next_url_ := some "file:///a.ogg"
      end_offset_nanosec_ := 1000
      next_beginning_offset_nanosec_ := 1000
      next_end_offset_nanosec_ := 2000 }

/-- A pipeline past READY but with the decode stage not yet resolved. -/
def demoSeekState : GstEnginePipeline :=
  { initialState with
      valid_ := true
      state_ := GstState.GST_STATE_PAUSED
      pipeline_is_initialised_ := true
      raw_duration_nanosec_ := 10000 }

/-- A connected, playing pipeline inside the transient switch window of a
gapless transition. -/
def demoSwitchState : GstEnginePipeline :=
  { initialState with
      valid_ := true
      state_ := GstState.GST_STATE_PLAYING
      pipeline_is_connected_ := true
      pipeline_is_initialised_ := true
      ignore_next_seek_ := true
      ignore_tags_ := true
      raw_duration_nanosec_ := 10000 }

/-- A connected, playing pipeline (past Ready). -/
def demoPlayingState : GstEnginePipeline :=
  { initialState with
      valid_ := true
      state_ := GstState.GST_STATE_PLAYING
      pipeline_is_connected_ := true
      pipeline_is_initialised_ := true
      raw_duration_nanosec_ := 10000 }

/-- A sample GStreamer error. -/
def demoError : PipelineError :=
  { message := "Could not open resource for reading.", domain := 1232, error_code := 5 }

/-- C1: for a gapless transition where the next track is a contiguous
section of the same source (current segment `[0, 1000)`, next
`(begin = 1000, end = 2000)`, same URL), the transition performed at
end-of-stream does not reset `segment_start` to 0 (it becomes 1000), keeps
the URL, opens the tag-suppression window (so tag messages received during
the switch emit no metadata), and signals end-of-stream with
`has_next_track = true`. -/
theorem gapless_contiguous_transition (s : GstEnginePipeline) (u : String)
    (h1 : s.url_ = some u) (h2 : s.next_url_ = some u)
    (_h3 : s.segment_start_ = 0) (_h4 : s.end_offset_nanosec_ = 1000)
    (h5 : s.next_beginning_offset_nanosec_ = 1000)
    (_h6 : s.next_end_offset_nanosec_ = 2000) :
    s.TransitionToNext.segment_start_ = 1000 ∧
    s.TransitionToNext.segment_start_ ≠ 0 ∧
    s.TransitionToNext.url_ = s.url_ ∧
    s.TransitionToNext.ignore_tags_ = true ∧
    (∀ bundle, (s.TransitionToNext.TagMessageReceived bundle).events =
      s.TransitionToNext.events) ∧
    s.TransitionToNext.events = s.events ++ [Event.EndOfStreamReached true] := by
  simp [TransitionToNext, TagMessageReceived, QUrl.isValid, h1, h2, h5]

/-- C1 witness: the transition evaluated on the concrete section-8
scenario. -/
theorem gapless_contiguous_transition_witness :
    demoTransitionState.TransitionToNext.segment_start_ = 1000 ∧
    demoTransitionState.TransitionToNext.ignore_tags_ = true ∧
    (demoTransitionState.TransitionToNext.TagMessageReceived "stale tag").events =
      demoTransitionState.TransitionToNext.events ∧
    demoTransitionState.TransitionToNext.events =
      demoTransitionState.events ++ [Event.EndOfStreamReached true] := by
  have h := gapless_contiguous_transition demoTransitionState "file:///a.ogg"
    rfl rfl rfl rfl rfl rfl
  exact ⟨h.1, h.2.2.2.1, h.2.2.2.2.1 "stale tag", h.2.2.2.2.2⟩

/-- C5: delivering one streamed buffer to N registered consumers performs
exactly N deliveries, each consumer receiving the identical buffer, in
registration order; the delivery iterates a snapshot of the consumer set
(it is a pure function of the set at delivery time, never mutated
mid-iteration), and removing a consumer before a delivery deterministically
excludes exactly that consumer from it. -/
theorem buffer_fanout_snapshot (s : GstEnginePipeline) (buf : Int) (c : Nat) :
    (s.DeliverBuffer buf).length = s.buffer_consumers_.length ∧
    ((s.DeliverBuffer buf).all (fun d => d.2 == buf)) = true ∧
    (s.DeliverBuffer buf).map Prod.fst = s.buffer_consumers_ ∧
    (((s.RemoveBufferConsumer c).DeliverBuffer buf).all (fun d => d.1 != c)) = true ∧
    (s.RemoveBufferConsumer c).DeliverBuffer buf =
      (s.DeliverBuffer buf).filter (fun d => d.1 != c) := by
  have key : ∀ l : List Nat,
      (((l.filter (fun x => x != c)).map (fun x => (x, buf))).all
        (fun d => d.1 != c)) = true ∧
      (l.filter (fun x => x != c)).map (fun x => (x, buf)) =
        (l.map (fun x => (x, buf))).filter (fun d => d.1 != c) := by
    intro l
    induction l with
    | nil => exact ⟨rfl, rfl⟩
    | cons a t ih =>
      by_cases h : a = c
      · simpa [h] using ih
      · exact ⟨by simp [h, ih.1], by simp [h, ih.2]⟩
  exact ⟨by simp [DeliverBuffer], by simp [DeliverBuffer],
    by simp [DeliverBuffer, List.map_map, Function.comp_def],
    (key s.buffer_consumers_).1, (key s.buffer_consumers_).2⟩

/-- C6: the effective output gain pushed to the graph is always
`clamp(base, 0, 100) / 100 × modifier`, recomputed and pushed whenever
either `SetVolume` or `SetVolumeModifier` changes its axis; a modifier of
0 pushes gain 0 (mute) for every base volume. -/
theorem effective_gain_formula (s : GstEnginePipeline) (p : Int) (m : Rat) :
    (s.SetVolume p).pushed_volumes =
      s.pushed_volumes ++ [((max 0 (min p 100) : Int) : Rat) / 100 * s.volume_modifier_] ∧
    (s.SetVolumeModifier m).pushed_volumes =
      s.pushed_volumes ++ [((max 0 (min s.volume_percent_ 100) : Int) : Rat) / 100 * m] ∧
    (s.SetVolumeModifier 0).pushed_volumes = s.pushed_volumes ++ [0] := by
  refine ⟨rfl, rfl, ?_⟩
  simp [SetVolumeModifier, UpdateVolume, effectiveGain]

/-- C7: `SetNextUrl` accepts an offset pair `(begin, end)` exactly when
`end == 0` or `end > begin` (storing the URL and both offsets), rejects
any other pair leaving the pipeline unchanged, and thereby preserves the
invariant that a valid `next_url` has well-formed offsets. -/
theorem set_next_url_validation (s : GstEnginePipeline) (u : QUrl) (b e : Int) :
    ((e = 0 ∨ e > b) →
      (s.SetNextUrl u b e).next_url_ = u ∧
      (s.SetNextUrl u b e).next_beginning_offset_nanosec_ = b ∧
      (s.SetNextUrl u b e).next_end_offset_nanosec_ = e) ∧
    (¬(e = 0 ∨ e > b) → s.SetNextUrl u b e = s) ∧
    (wellFormedNext s → wellFormedNext (s.SetNextUrl u b e)) := by
  by_cases h : e = 0 ∨ e > b
  · refine ⟨fun _ => by simp [SetNextUrl, h], fun hc => absurd h hc, fun _ => ?_⟩
    intro _
    simp only [SetNextUrl, if_pos h]
    exact h
  · refine ⟨fun hc => absurd hc h, fun _ => by simp [SetNextUrl, h], fun hw => ?_⟩
    simp only [SetNextUrl, if_neg h]
    exact hw

/-- C7 witness: the accepting and rejecting branches evaluated on concrete
pairs, and invariant preservation from the initial state. -/
theorem set_next_url_validation_witness :
    (initialState.SetNextUrl (some "file:///b.ogg") 1000 2000).next_url_ =
      some "file:///b.ogg" ∧
    initialState.SetNextUrl (some "file:///b.ogg") 5 3 = initialState ∧
    wellFormedNext (initialState.SetNextUrl (some "file:///b.ogg") 1000 2000) := by
  refine ⟨((set_next_url_validation initialState (some "file:///b.ogg") 1000 2000).1
      (by norm_num)).1,
    (set_next_url_validation initialState (some "file:///b.ogg") 5 3).2.1 (by norm_num),
    (set_next_url_validation initialState (some "file:///b.ogg") 1000 2000).2.2 ?_⟩
  intro h
  simp [initialState, QUrl.isValid] at h

/-- C9: the query accessors `position()` and `length()` are
multiple-section media unaware: they return the raw underlying pipeline
position/duration, unchanged by the `segment_start_` and
`end_offset_nanosec_` fields (no subtraction of `segment_start`, no
restriction to the current segment's range). -/
theorem position_length_segment_unaware (s : GstEnginePipeline) (x y : Int) :
    s.position = s.raw_position_nanosec_ ∧
    s.length = s.raw_duration_nanosec_ ∧
    ({ s with segment_start_ := x, end_offset_nanosec_ := y } :
      GstEnginePipeline).position = s.position ∧
    ({ s with segment_start_ := x, end_offset_nanosec_ := y } :
      GstEnginePipeline).length = s.length :=
  ⟨rfl, rfl, rfl, rfl⟩

/-- C10 counterexample: calling `SetNextUrl` with a valid URL but
ill-formed offsets (begin = 5, end = 3) does not make
`has_next_valid_url()` return true — the pair is rejected and no URL is
stored, contradicting the claim that such a call "still makes
has_next_valid_url() return true". -/
theorem has_next_valid_url_counterexample :
    (initialState.SetNextUrl (some "file:///a.ogg") 5 3).has_next_valid_url = false := by
  decide

/-- C10 (amended): `has_next_valid_url()` returns true iff the stored
`next_url_` is valid, and its value never depends on the recorded offsets;
an accepted `SetNextUrl` makes it reflect the new URL's validity
regardless of the offset values, while a `SetNextUrl` with ill-formed
offsets is rejected and leaves `has_next_valid_url()` unchanged. -/
theorem has_next_valid_url_amended (s : GstEnginePipeline) (u : QUrl) (b e : Int) :
    s.has_next_valid_url = s.next_url_.isValid ∧
    ({ s with next_beginning_offset_nanosec_ := b, next_end_offset_nanosec_ := e } :
      GstEnginePipeline).has_next_valid_url = s.has_next_valid_url ∧
    ((e = 0 ∨ e > b) → (s.SetNextUrl u b e).has_next_valid_url = u.isValid) ∧
    (¬(e = 0 ∨ e > b) → (s.SetNextUrl u b e).has_next_valid_url = s.has_next_valid_url) := by
  by_cases h : e = 0 ∨ e > b
  · exact ⟨rfl, rfl, fun _ => by simp [SetNextUrl, h, has_next_valid_url],
      fun hc => absurd h hc⟩
  · exact ⟨rfl, rfl, fun hc => absurd hc h, fun _ => by simp [SetNextUrl, h]⟩

/-- C10 witness: both branches of the amended statement evaluated on
concrete inputs. -/
theorem has_next_valid_url_amended_witness :
    (initialState.SetNextUrl (some "file:///a.ogg") 1000 2000).has_next_valid_url =
      QUrl.isValid (some "file:///a.ogg") ∧
    (initialState.SetNextUrl (some "file:///a.ogg") 5 3).has_next_valid_url =
      initialState.has_next_valid_url :=
  ⟨(has_next_valid_url_amended initialState (some "file:///a.ogg") 1000 2000).2.2.1
      (by norm_num),
   (has_next_valid_url_amended initialState (some "file:///a.ogg") 5 3).2.2.2
      (by norm_num)⟩

/-- C2: outside a transition window, a `Seek` issued before the pipeline
is connected or before it is past the READY state is accepted and
deferred (no flush seek issued); once the missing precondition is met
(pad connection, or the state change to PAUSED) the deferred seek is
executed exactly once — exactly one flush seek, at the originally
requested position clamped to `[segment_start, segment_start+length)`,
after which no pending seek remains and a repeated
connection/state notification issues no further seek.  A `Seek` issued
when already connected and past READY issues the clamped flush seek
immediately. -/
theorem seek_deferred_then_replayed_once (s : GstEnginePipeline) (pos : Int)
    (hig : s.ignore_next_seek_ = false) :
    ((s.pipeline_is_connected_ = false ∨ s.pipeline_is_initialised_ = false) →
      (s.Seek pos).2 = true ∧
      (s.Seek pos).1.pending_seek_nanosec_ = some pos ∧
      (s.Seek pos).1.flush_seeks = s.flush_seeks) ∧
    (s.pipeline_is_connected_ = false → s.pipeline_is_initialised_ = true →
      (NewPadCallback (s.Seek pos).1).flush_seeks = s.flush_seeks ++
        [max s.segment_start_ (min pos (s.segment_start_ + s.raw_duration_nanosec_))] ∧
      (NewPadCallback (s.Seek pos).1).pending_seek_nanosec_ = none ∧
      (NewPadCallback (NewPadCallback (s.Seek pos).1)).flush_seeks =
        (NewPadCallback (s.Seek pos).1).flush_seeks) ∧
    (s.pipeline_is_connected_ = true → s.pipeline_is_initialised_ = false →
      (StateChangedMessageReceived (s.Seek pos).1 GstState.GST_STATE_PAUSED).flush_seeks =
        s.flush_seeks ++
        [max s.segment_start_ (min pos (s.segment_start_ + s.raw_duration_nanosec_))] ∧
      (StateChangedMessageReceived (s.Seek pos).1
        GstState.GST_STATE_PAUSED).pending_seek_nanosec_ = none) ∧
    (s.pipeline_is_connected_ = true → s.pipeline_is_initialised_ = true →
      (s.Seek pos).1.flush_seeks = s.flush_seeks ++
        [max s.segment_start_ (min pos (s.segment_start_ + s.raw_duration_nanosec_))] ∧
      (s.Seek pos).1.pending_seek_nanosec_ = none) := by
  refine ⟨fun h => ?_, fun hc hi => ?_, fun hc hi => ?_, fun hc hi => ?_⟩
  · rcases h with h | h <;> simp [Seek, hig, h]
  · simp [Seek, NewPadCallback, issueFlushSeek, hig, hc, hi]
  · simp [Seek, StateChangedMessageReceived, issueFlushSeek, hig, hc, hi]
  · simp [Seek, issueFlushSeek, hig, hc, hi]

/-- C2 witness: a seek to 500 issued before the decode stage is connected
on a pipeline already past READY is deferred and then replayed exactly
once by the pad-connection callback. -/
theorem seek_deferred_then_replayed_once_witness :
    (demoSeekState.Seek 500).1.pending_seek_nanosec_ = some 500 ∧
    (NewPadCallback (demoSeekState.Seek 500).1).flush_seeks = demoSeekState.flush_seeks ++
      [max demoSeekState.segment_start_
        (min 500 (demoSeekState.segment_start_ + demoSeekState.raw_duration_nanosec_))] ∧
    (NewPadCallback (demoSeekState.Seek 500).1).pending_seek_nanosec_ = none ∧
    (NewPadCallback (NewPadCallback (demoSeekState.Seek 500).1)).flush_seeks =
      (NewPadCallback (demoSeekState.Seek 500).1).flush_seeks :=
  ⟨((seek_deferred_then_replayed_once demoSeekState 500 rfl).1 (Or.inl rfl)).2.1,
   ((seek_deferred_then_replayed_once demoSeekState 500 rfl).2.1 rfl rfl).1,
   ((seek_deferred_then_replayed_once demoSeekState 500 rfl).2.1 rfl rfl).2.1,
   ((seek_deferred_then_replayed_once demoSeekState 500 rfl).2.1 rfl rfl).2.2⟩

/-- C3: a seek request received while a gapless transition is in progress
(the transient window opened by `TransitionToNext`, which always sets
`ignore_next_seek_`) is accepted and queued into `pending_seek_nanosec_`
without touching the graph, and once the transition completes it is
replayed: the queued position is issued as a clamped flush seek and the
queue is emptied — the request is never silently dropped. -/
theorem seek_during_transition_queued (s : GstEnginePipeline) (pos : Int)
    (h : s.ignore_next_seek_ = true) :
    (s.Seek pos).2 = true ∧
    (s.Seek pos).1.pending_seek_nanosec_ = some pos ∧
    (s.Seek pos).1.flush_seeks = s.flush_seeks ∧
    (s.pipeline_is_connected_ = true → s.pipeline_is_initialised_ = true →
      (FinishTransition (s.Seek pos).1).flush_seeks = s.flush_seeks ++
        [max s.segment_start_ (min pos (s.segment_start_ + s.raw_duration_nanosec_))] ∧
      (FinishTransition (s.Seek pos).1).pending_seek_nanosec_ = none) ∧
    (∀ t : GstEnginePipeline, t.next_url_.isValid = true →
      (TransitionToNext t).ignore_next_seek_ = true) := by
  refine ⟨by simp [Seek, h], by simp [Seek, h], by simp [Seek, h],
    fun hc hi => ?_, fun t ht => by simp [TransitionToNext, ht]⟩
  simp [Seek, FinishTransition, issueFlushSeek, h, hc, hi]

/-- C3 witness: a seek to 700 received inside the switch window is queued
and then replayed by the completion of the transition. -/
theorem seek_during_transition_queued_witness :
    (demoSwitchState.Seek 700).1.pending_seek_nanosec_ = some 700 ∧
    (demoSwitchState.Seek 700).1.flush_seeks = demoSwitchState.flush_seeks ∧
    (FinishTransition (demoSwitchState.Seek 700).1).flush_seeks =
      demoSwitchState.flush_seeks ++
      [max demoSwitchState.segment_start_
        (min 700 (demoSwitchState.segment_start_ + demoSwitchState.raw_duration_nanosec_))] ∧
    (FinishTransition (demoSwitchState.Seek 700).1).pending_seek_nanosec_ = none ∧
    (TransitionToNext demoTransitionState).ignore_next_seek_ = true :=
  ⟨(seek_during_transition_queued demoSwitchState 700 rfl).2.1,
   (seek_during_transition_queued demoSwitchState 700 rfl).2.2.1,
   ((seek_during_transition_queued demoSwitchState 700 rfl).2.2.2.1 rfl rfl).1,
   ((seek_during_transition_queued demoSwitchState 700 rfl).2.2.2.1 rfl rfl).2,
   (seek_during_transition_queued demoSwitchState 700 rfl).2.2.2.2
     demoTransitionState rfl⟩

/-- C4: every error message is captured as a `PipelineError`.  Received
before the pipeline reaches Ready (state still NULL) it is cached in
`pipeline_error_` with no `Error` event, and `InitFromUrl` then fails:
it returns false, leaves the pipeline invalid and exposes the cached
error as the failure reason.  Received after Ready it is emitted to the
caller as a single `Error` event carrying the verbatim message, domain
and code, with no other state change (in particular no retry: no seek or
state mutation is performed). -/
theorem error_capture_and_routing (s : GstEnginePipeline) (e : PipelineError) :
    (s.state_ = GstState.GST_STATE_NULL → s.pipeline_error_ = none →
      (s.ErrorMessageReceived e).pipeline_error_ = some e ∧
      (s.ErrorMessageReceived e).events = s.events) ∧
    (s.state_ ≠ GstState.GST_STATE_NULL →
      (s.ErrorMessageReceived e).events =
        s.events ++ [Event.ErrorSignal e.message e.domain e.error_code] ∧
      (s.ErrorMessageReceived e).pipeline_error_ = s.pipeline_error_ ∧
      (s.ErrorMessageReceived e).flush_seeks = s.flush_seeks ∧
      (s.ErrorMessageReceived e).state_ = s.state_ ∧
      (s.ErrorMessageReceived e).valid_ = s.valid_ ∧
      (s.ErrorMessageReceived e).url_ = s.url_) ∧
    (s.state_ = GstState.GST_STATE_NULL → s.pipeline_error_ = none →
      ∀ url d, (s.InitFromUrl url d true [e]).2 = false ∧
        (s.InitFromUrl url d true [e]).1.valid_ = false ∧
        (s.InitFromUrl url d true [e]).1.pipeline_error_ = some e) := by
  refine ⟨fun hs he => ?_, fun hs => ?_, fun hs he url d => ?_⟩
  · simp [ErrorMessageReceived, hs, he]
  · simp [ErrorMessageReceived, hs]
  · simp [InitFromUrl, ErrorMessageReceived, hs, he]

/-- C4 witness: the cache-then-fail-Init path evaluated from the freshly
constructed pipeline, and the post-Ready emission path evaluated on a
playing pipeline, both with a concrete GStreamer error. -/
theorem error_capture_and_routing_witness :
    (initialState.ErrorMessageReceived demoError).pipeline_error_ = some demoError ∧
    (initialState.ErrorMessageReceived demoError).events = initialState.events ∧
    (initialState.InitFromUrl (some "file:///a.ogg") 0 true [demoError]).2 = false ∧
    (initialState.InitFromUrl (some "file:///a.ogg") 0 true [demoError]).1.valid_ = false ∧
    (initialState.InitFromUrl (some "file:///a.ogg") 0 true
      [demoError]).1.pipeline_error_ = some demoError ∧
    (demoPlayingState.ErrorMessageReceived demoError).events = demoPlayingState.events ++
      [Event.ErrorSignal demoError.message demoError.domain demoError.error_code] :=
  ⟨((error_capture_and_routing initialState demoError).1 rfl rfl).1,
   ((error_capture_and_routing initialState demoError).1 rfl rfl).2,
   ((error_capture_and_routing initialState demoError).2.2 rfl rfl
     (some "file:///a.ogg") 0).1,
   ((error_capture_and_routing initialState demoError).2.2 rfl rfl
     (some "file:///a.ogg") 0).2.1,
   ((error_capture_and_routing initialState demoError).2.2 rfl rfl
     (some "file:///a.ogg") 0).2.2,
   ((error_capture_and_routing demoPlayingState demoError).2.1 (by decide)).1⟩

/-- Ticks of an idle fader (no active timeline) change nothing. -/
theorem runTicks_idle (s : GstEnginePipeline) (h : s.fader_ = none) (n : Nat) :
    runTicks s n = s := by
  induction n with
  | zero => rfl
  | succ k ih =>
    have hft : faderTick s = s := by simp [faderTick, h]
    calc runTicks s (k + 1) = runTicks (faderTick s) k := rfl
      _ = runTicks s k := by rw [hft]
      _ = s := ih

/-- Running an active envelope for at most its remaining duration counts
it down without emitting any event. -/
theorem runTicks_partial : ∀ (k : Nat) (s : GstEnginePipeline) (m : Nat),
    s.fader_ = some m → k ≤ m →
    (runTicks s k).fader_ = some (m - k) ∧ (runTicks s k).events = s.events := by
  intro k
  induction k with
  | zero =>
    intro s m h _
    show s.fader_ = some (m - 0) ∧ s.events = s.events
    simp [h]
  | succ j ih =>
    intro s m h hle
    cases m with
    | zero => exact absurd hle (by omega)
    | succ m' =>
      have hft : faderTick s = { s with fader_ := some m' } := by simp [faderTick, h]
      have hrun : runTicks s (j + 1) = runTicks { s with fader_ := some m' } j := by
        show runTicks (faderTick s) j = _
        rw [hft]
      have hih := ih { s with fader_ := some m' } m' rfl (by omega)
      rw [hrun]
      refine ⟨?_, hih.2⟩
      rw [hih.1]
      congr 1
      omega

/-- Running an active envelope one tick past its remaining duration drops
the timeline and emits `FaderFinished` exactly once. -/
theorem runTicks_finishes : ∀ (m : Nat) (s : GstEnginePipeline), s.fader_ = some m →
    (runTicks s (m + 1)).fader_ = none ∧
    (runTicks s (m + 1)).events = s.events ++ [Event.FaderFinished] := by
  intro m
  induction m with
  | zero =>
    intro s h
    have hft : runTicks s 1 = FaderTimelineFinished s := by
      show faderTick s = FaderTimelineFinished s
      simp [faderTick, h]
    rw [hft]
    exact ⟨rfl, rfl⟩
  | succ m' ih =>
    intro s h
    have hft : faderTick s = { s with fader_ := some m' } := by simp [faderTick, h]
    have hrun : runTicks s (m' + 1 + 1) = runTicks { s with fader_ := some m' } (m' + 1) := by
      show runTicks (faderTick s) (m' + 1) = _
      rw [hft]
    rw [hrun]
    exact ih { s with fader_ := some m' } rfl

/-- Fader ticks compose. -/
theorem runTicks_add : ∀ (a : Nat) (s : GstEnginePipeline) (b : Nat),
    runTicks s (a + b) = runTicks (runTicks s a) b := by
  intro a
  induction a with
  | zero =>
    intro s b
    rw [Nat.zero_add]
    rfl
  | succ j ih =>
    intro s b
    rw [Nat.succ_add]
    show runTicks (faderTick s) (j + b) = runTicks (runTicks (faderTick s) j) b
    exact ih (faderTick s) b

/-- C8: starting a second fade while a first one is still active (after
any `k ≤ d1` ticks of a `d1`-tick first fade) cancels and replaces the
active envelope, and running the fader to the second fade's natural
completion emits exactly one `FaderFinished` event in total — none for
the cancelled first fade, one for the second. -/
theorem fader_replacement_single_finish (s : GstEnginePipeline) (d1 d2 k n : Nat)
    (hk : k ≤ d1) (hn : d2 + 1 ≤ n) :
    faderFinishedCount (runTicks (s.StartFader d1) k) = faderFinishedCount s ∧
    ((runTicks (s.StartFader d1) k).StartFader d2).fader_ = some d2 ∧
    faderFinishedCount (runTicks ((runTicks (s.StartFader d1) k).StartFader d2) n) =
      faderFinishedCount s + 1 := by
  have h1 := runTicks_partial k (s.StartFader d1) d1 rfl hk
  have hev1 : (runTicks (s.StartFader d1) k).events = s.events := h1.2
  have h2 := runTicks_finishes d2 ((runTicks (s.StartFader d1) k).StartFader d2) rfl
  have hev2 : ((runTicks (s.StartFader d1) k).StartFader d2).events = s.events := hev1
  obtain ⟨r, hr⟩ : ∃ r, n = (d2 + 1) + r := ⟨n - (d2 + 1), by omega⟩
  refine ⟨?_, rfl, ?_⟩
  · unfold faderFinishedCount
    rw [hev1]
  · unfold faderFinishedCount
    rw [hr, runTicks_add, runTicks_idle _ h2.1, h2.2, hev2, List.countP_append]
    simp

/-- C8 witness: a 5-tick fade interrupted after 2 ticks by a 3-tick fade
that then completes naturally fires exactly one finished event. -/
theorem fader_replacement_single_finish_witness :
    faderFinishedCount (runTicks (initialState.StartFader 5) 2) =
      faderFinishedCount initialState ∧
    ((runTicks (initialState.StartFader 5) 2).StartFader 3).fader_ = some 3 ∧
    faderFinishedCount (runTicks ((runTicks (initialState.StartFader 5) 2).StartFader 3) 4) =
      faderFinishedCount initialState + 1 :=
  fader_replacement_single_finish initialState 5 3 2 4 (by norm_num) (by norm_num)
